import Mathlib

/-!
Verification development for the hybrid RAG question-answering system
(`rag_gpt_ollama_sources.py`).

The subject program keeps a FAISS `IndexFlatL2` of embedding vectors in
lockstep with a Python list of documents, persists both to disk after each
append, retrieves evidence either from this offline cache or from a live web
search that warms the cache, assembles a grounding prompt, and calls an
external generator.  External capabilities (the sentence-transformer
embedder, the web search, the generator) are modelled as function parameters;
embedding vectors are modelled with exact integers; fallible calls return
`Except`/`Option` values where the Python code can raise.
-/

/-- Embedding vectors.  The source uses float32 arrays of dimension 384; the
scalars are modelled with exact integers and the dimension is left abstract,
which is faithful for the structural properties proved here (none of them
depends on the scalar type, only on the distance order). -/
abbrev Vec := List ℤ

/-- A cached document, `{"text": ..., "source": ...}` in the source. -/
structure Doc where
  text : String
  source : String
  deriving DecidableEq

/-- The constant `VECTOR_DB = "rag_index.faiss"`, the FAISS index file. -/
def VECTOR_DB : String := "rag_index.faiss"

/-- The constant `DOC_STORE = "rag_docs.npy"`, the document metadata file. -/
def DOC_STORE : String := "rag_docs.npy"

/-- One durable-storage operation issued by the program.  `writeFile p` is an
in-place write of the whole file `p` (what `faiss.write_index` and `np.save`
do); `renameFile` is an atomic rename, which the source never issues. -/
inductive FsOp where
  | writeFile (path : String)
  | renameFile (src dst : String)
  deriving DecidableEq

/-- A process crash in the middle of `op` can leave `path` partially written
and hence unreadable: true exactly for an in-place `writeFile path`; a rename
is atomic at crash granularity (the target is the old or the new file). -/
def opCanCorrupt (op : FsOp) (path : String) : Bool :=
  match op with
  | .writeFile p => p == path
  | .renameFile _ _ => false

/-- Stated from the spec's words (§4.1 persist contract), for comparison with
the trace the source actually produces: a trace of storage operations follows
the write-to-temp-then-rename discipline for `path` when it never writes
`path` in place. -/
def specTempThenRename (ops : List FsOp) (path : String) : Prop :=
  ∀ op ∈ ops, op ≠ FsOp.writeFile path

/-- The mutable state touched by `add_to_index`: the in-memory FAISS index
(`index`) and document list (`doc_store`), the durable copies produced by the
write-through persist of the last successful append, and the cumulative trace
of file-system operations issued. -/
structure Store where
  index : List Vec
  docs : List Doc
  diskIndex : List Vec
  diskDocs : List Doc
  fsTrace : List FsOp
  deriving DecidableEq

/-- The §3 alignment invariant: one document per stored vector. -/
def aligned (st : Store) : Prop := st.index.length = st.docs.length

/-- The writer `add_to_index(text, source)`: embed the text (the embedder is an external
capability whose failure is modelled by `Except.error`; the source wraps this
call in no handler), append the vector to the index and the document to
`doc_store`, then persist both stores by rewriting the two files in place
(`faiss.write_index(index, VECTOR_DB)`; `np.save(DOC_STORE, ...)`). -/
def add_to_index (encode : String → Except String Vec) (st : Store)
    (text source : String) : Except String Store :=
  match encode text with
  | .error e => .error e
  | .ok v =>
      let idx2 := st.index ++ [v]
      let docs2 := st.docs ++ [⟨text, source⟩]
      .ok ⟨idx2, docs2, idx2, docs2,
        st.fsTrace ++ [.writeFile VECTOR_DB, .writeFile DOC_STORE]⟩

/-- The states reached after each successful `add_to_index` call of a
sequence of `(text, source)` writes; the trace stops at the first failure. -/
def writeTrace (encode : String → Except String Vec) (st : Store) :
    List (String × String) → List Store
  | [] => []
  | p :: rest =>
      match add_to_index encode st p.1 p.2 with
      | .error _ => []
      | .ok st2 => st2 :: writeTrace encode st2 rest

/-- Squared Euclidean distance, the metric of `faiss.IndexFlatL2`. -/
def sqDist (u v : Vec) : ℤ :=
  (List.zipWith (fun a b => (a - b) * (a - b)) u v).sum

/-- The stored vectors paired with their insertion positions (as the `int64`
ids FAISS reports) and their distance to the query vector. -/
def scoredOf (idx : List Vec) (q : Vec) : List (Int × ℤ) :=
  idx.enum.map (fun p => ((p.1 : Int), sqDist q p.2))

/-- Ascending-by-distance comparison used to order search results. -/
def byDist (a b : Int × ℤ) : Prop := a.2 ≤ b.2

instance : DecidableRel byDist :=
  fun a b => inferInstanceAs (Decidable (a.2 ≤ b.2))

/-- The id row `index.search(vec, k)[1][0]` of a FAISS `IndexFlatL2`: the ids
of up to `k` nearest stored vectors in ascending distance order; when fewer
than `k` vectors are stored, FAISS pads the row with `-1` up to length `k`.
The distance row is discarded by the source (`_, idx = index.search(...)`). -/
def faissSearch (idx : List Vec) (q : Vec) (k : Nat) : List Int :=
  let sorted := List.insertionSort byDist (scoredOf idx q)
  let top := (sorted.map Prod.fst).take k
  top ++ List.replicate (k - top.length) (-1)

/-- Python list indexing `l[i]`: a non-negative `i` indexes from the front, a
negative `i` from the back; `none` models the `IndexError` raised outside
these bounds (not reachable on the code paths modelled here). -/
def pyGet {α : Type} (l : List α) (i : Int) : Option α :=
  if 0 ≤ i then l[i.toNat]?
  else if -(l.length : Int) ≤ i then l[((l.length : Int) + i).toNat]?
  else none

/-- The evidence selection of `offline_rag`:
`[doc_store[i] for i in idx[0] if i < len(doc_store)]`. -/
def offlineEvidence (docs : List Doc) (ids : List Int) : List Doc :=
  (ids.filter (fun i => decide (i < (docs.length : Int)))).filterMap (pyGet docs)

/-- The early-return message of `offline_rag` on an empty cache; this string
is the `NoCache` status signal of the spec. -/
def noOfflineDataMsg : String :=
  "⚠️ No offline data. Try online mode once to build cache."

/-- The `offline_rag` message when the evidence selection is empty
(the `NoMatch` status signal of the spec). -/
def noMatchMsg : String := "⚠️ No relevant offline information found."

/-- The `online_rag` message when the web fetch yields no documents
(the `NoResults` status signal of the spec). -/
def noWebMsg : String := "⚠️ No relevant web info found."

/-- The f-string of `offline_rag`, byte for byte: the instructional header
(note the trailing space after "CONTEXT." in the source), the evidence texts
joined with a blank line, the QUESTION header, the query, and the closing
instruction. -/
def offlinePrompt (query : String) (evidence : List Doc) : String :=
  let context := String.intercalate "\n\n" (evidence.map Doc.text)
  "\nAnswer factually using the given CONTEXT. \nIf unsure, say \"Information not found locally.\"\n\nCONTEXT:\n"
    ++ context ++ "\n\nQUESTION:\n" ++ query ++ "\n\nAnswer clearly:\n"

/-- The f-string of `online_rag`, byte for byte. -/
def onlinePrompt (query : String) (evidence : List Doc) : String :=
  let context := String.intercalate "\n\n" (evidence.map Doc.text)
  "\nAnswer factually using this recent web search context.\n\nCONTEXT:\n"
    ++ context ++ "\n\nQUESTION:\n" ++ query ++ "\n\nAnswer clearly:\n"

/-- Stated from the spec's words (§4.5): the evidence texts in the order
provided, separated by a blank line. -/
def specJoinedTexts (evidence : List Doc) : String :=
  String.intercalate "\n\n" (evidence.map Doc.text)

/-- Observable outcome of one retrieval call: the answer string (on the
no-data branches this is the fixed status message), the returned source list,
and whether `generate_with_ollama` was invoked to produce the answer. -/
structure RagResult where
  answer : String
  sources : List String
  usedGenerator : Bool
  deriving DecidableEq

/-- The offline strategy `offline_rag(query, top_k)`: guard on an empty cache, embed the query
(`Except` models the unhandled embedder call), search, select evidence with
the bound filter, and either report no match or generate from the prompt.
`gen` is `generate_with_ollama`, which catches its own exceptions and
returns a string, hence is total here. -/
def offline_rag (encode : String → Except String Vec) (gen : String → String)
    (idx : List Vec) (docs : List Doc) (query : String) (top_k : Nat) :
    Except String RagResult :=
  if docs = [] ∨ idx.length = 0 then .ok ⟨noOfflineDataMsg, [], false⟩
  else
    match encode query with
    | .error e => .error e
    | .ok v =>
        let evDocs := offlineEvidence docs (faissSearch idx v top_k)
        if evDocs = [] then .ok ⟨noMatchMsg, [], false⟩
        else .ok ⟨gen (offlinePrompt query evDocs),
          (evDocs.filter (fun d => !d.source.isEmpty)).map Doc.source, true⟩

/-- The cache-warming loop of `online_rag`:
`for d in docs: add_to_index(d["text"], d["source"])`.  The loop body is
wrapped in no handler, so the first failing write aborts the whole loop with
the raised error. -/
def warmCache (encode : String → Except String Vec) (st : Store) :
    List Doc → Except String Store
  | [] => .ok st
  | d :: rest =>
      match add_to_index encode st d.text d.source with
      | .error e => .error e
      | .ok st2 => warmCache encode st2 rest

/-- The online strategy `online_rag(query)`, given the documents the web fetch produced (the fetch
itself swallows its own network errors and returns a list): guard on empty
results, warm the cache with every fetched document, then generate from the
prompt.  Returns the result together with the updated store. -/
def online_rag (encode : String → Except String Vec) (gen : String → String)
    (st : Store) (fetched : List Doc) (query : String) :
    Except String (RagResult × Store) :=
  if fetched = [] then .ok (⟨noWebMsg, [], false⟩, st)
  else
    match warmCache encode st fetched with
    | .error e => .error e
    | .ok st2 =>
        .ok (⟨gen (onlinePrompt query fetched),
          (fetched.filter (fun d => !d.source.isEmpty)).map Doc.source, true⟩,
          st2)

/-- The mode label hard-assigned in the sidebar when the connectivity probe
reports false. -/
def offlineModeLabel : String := "💻 Offline (FAISS + Ollama)"

/-- The online choice offered by the sidebar radio button when connected. -/
def onlineModeLabel : String := "🌍 Online (Serper + Ollama)"

/-- Whether `needle` occurs at the head of `hay`. -/
def matchAt : List Char → List Char → Bool
  | [], _ => true
  | _ :: _, [] => false
  | a :: as, b :: bs => a == b && matchAt as bs

/-- Occurrence of `needle` anywhere in the remaining text. -/
def hasSubstr (needle : List Char) : List Char → Bool
  | [] => needle.isEmpty
  | b :: bs => matchAt needle (b :: bs) || hasSubstr needle bs

/-- Python's substring test `needle in s`. -/
def pyIn (needle s : String) : Bool := hasSubstr needle.toList s.toList

/-- The dispatch condition of the submit handler: `if "Online" in mode`. -/
def usesOnlinePath (mode : String) : Bool := pyIn "Online" mode

/-- The sidebar mode selection: when the connectivity probe is true the user
radio choice is taken; otherwise the mode is forced to the offline label. -/
def selectMode (online_status : Bool) (radioChoice : String) : String :=
  if online_status then radioChoice else offlineModeLabel

/-- The submit handler: `online_rag` when the selected mode label contains
"Online", else `offline_rag` at the default `top_k = 3`.  `fetch` is the Live
Search Client; it is consulted only on the online branch. -/
def mainDispatch (encode : String → Except String Vec) (gen : String → String)
    (st : Store) (fetch : String → List Doc) (query : String) (mode : String) :
    Except String (RagResult × Store) :=
  if usesOnlinePath mode then online_rag encode gen st (fetch query) query
  else (offline_rag encode gen st.index st.docs query 3).map (fun r => (r, st))

/-- State of one on-disk artifact as seen by `load_faiss`: missing, present
but unreadable (the read raises), or readable with parsed content. -/
inductive FileState (α : Type) where
  | absent
  | unreadable
  | readable (content : α)
  deriving DecidableEq

/-- The existence check `os.path.exists` on the artifact. -/
def FileState.existsOnDisk {α : Type} : FileState α → Bool
  | .absent => false
  | .unreadable => true
  | .readable _ => true

/-- Reading the artifact (`faiss.read_index` / `np.load`); `none` models a
raised exception. -/
def FileState.read {α : Type} : FileState α → Option α
  | .absent => none
  | .unreadable => none
  | .readable c => some c

/-- The loader `load_faiss()`: if both files exist, try to read both (the single bare
`except:` around the two reads turns any failure into a freshly initialised
empty index and empty document list); if either file is missing, start
empty.  The function never raises. -/
def load_faiss (vf : FileState (List Vec)) (df : FileState (List Doc)) :
    List Vec × List Doc :=
  if vf.existsOnDisk && df.existsOnDisk then
    match vf.read with
    | none => ([], [])
    | some v =>
        match df.read with
        | none => ([], [])
        | some d => (v, d)
  else ([], [])

/-- An embedder that fails on the text "boom" and embeds everything else. -/
def badEncode : String → Except String Vec :=
  fun t => if t = "boom" then .error "embed fail" else .ok [0]

/-- The freshly initialised empty store. -/
def emptyStore : Store := ⟨[], [], [], [], []⟩

/-- A concrete web-fetch result whose second document the bad embedder
rejects. -/
def fetchedDocs : List Doc :=
  [⟨"good", "s1"⟩, ⟨"boom", "s2"⟩, ⟨"after", "s3"⟩]

/-! ## Helper lemmas -/

theorem add_to_index_ok (encode : String → Except String Vec) (st : Store)
    (t s : String) (st2 : Store) (h : add_to_index encode st t s = .ok st2) :
    st2.index.length = st.index.length + 1 ∧
    st2.docs.length = st.docs.length + 1 ∧
    st2.fsTrace = st.fsTrace ++ [FsOp.writeFile VECTOR_DB, FsOp.writeFile DOC_STORE] := by
  unfold add_to_index at h
  cases henc : encode t with
  | error e => rw [henc] at h; exact absurd h (by simp)
  | ok v =>
      rw [henc] at h
      simp only [Except.ok.injEq] at h
      subst h
      simp

theorem scoredOf_length (idx : List Vec) (q : Vec) :
    (scoredOf idx q).length = idx.length := by
  simp [scoredOf]

theorem scoredOf_map_fst (idx : List Vec) (q : Vec) :
    (scoredOf idx q).map Prod.fst = (List.range idx.length).map Int.ofNat := by
  unfold scoredOf
  rw [List.map_map]
  have h : (Prod.fst ∘ fun p : Nat × Vec => ((p.1 : Int), sqDist q p.2)) =
      (Int.ofNat ∘ Prod.fst) := rfl
  rw [h, ← List.map_map, List.enum_map_fst]

theorem faissSearch_short (idx : List Vec) (q : Vec) (k : Nat)
    (hk : idx.length ≤ k) :
    ∃ realTop : List Int,
      faissSearch idx q k = realTop ++ List.replicate (k - idx.length) (-1) ∧
      realTop.length = idx.length ∧
      realTop.Perm ((List.range idx.length).map Int.ofNat) := by
  refine ⟨(List.insertionSort byDist (scoredOf idx q)).map Prod.fst, ?_, ?_, ?_⟩
  · have hlen : ((List.insertionSort byDist (scoredOf idx q)).map Prod.fst).length
        = idx.length := by
      rw [List.length_map, List.length_insertionSort, scoredOf_length]
    simp only [faissSearch]
    rw [List.take_of_length_le (by rw [hlen]; exact hk), hlen]
  · rw [List.length_map, List.length_insertionSort, scoredOf_length]
  · have h1 := (List.perm_insertionSort byDist (scoredOf idx q)).map Prod.fst
    rw [scoredOf_map_fst] at h1
    exact h1

theorem pyGet_ofNat {α : Type} (l : List α) (m : Nat) :
    pyGet l (m : Int) = l[m]? := by
  unfold pyGet
  rw [if_pos (Int.ofNat_nonneg m)]
  norm_num

theorem pyGet_neg_one {α : Type} (l : List α) (h : l ≠ []) :
    pyGet l (-1) = l.getLast? := by
  unfold pyGet
  have hlen : 1 ≤ l.length := List.length_pos.mpr h
  rw [if_neg (by decide), if_pos (by omega)]
  have h2 : (((l.length : Int)) + (-1)).toNat = l.length - 1 := by omega
  rw [h2, List.getLast?_eq_getElem?]

/-! ## Claim theorems -/

/-- C2: for every sequence of successful Cache Writer writes starting from an
aligned store, every state reached after each call keeps the length of the
document store equal to the number of vectors in the index, and each call
grows both stores by exactly one entry. -/
theorem add_to_index_alignment (encode : String → Except String Vec)
    (st : Store) (ps : List (String × String)) (h : aligned st) :
    (∀ st2 ∈ writeTrace encode st ps, aligned st2) ∧
    List.Chain (fun a b => b.index.length = a.index.length + 1 ∧
      b.docs.length = a.docs.length + 1) st (writeTrace encode st ps) := by
  induction ps generalizing st with
  | nil => exact ⟨by simp [writeTrace], by simp [writeTrace]⟩
  | cons p rest ih =>
      unfold writeTrace
      cases hadd : add_to_index encode st p.1 p.2 with
      | error e => simp
      | ok st2 =>
          obtain ⟨h1, h2, -⟩ := add_to_index_ok encode st p.1 p.2 st2 hadd
          have hal2 : aligned st2 := by unfold aligned at h ⊢; omega
          obtain ⟨iha, ihb⟩ := ih st2 hal2
          refine ⟨?_, List.Chain.cons ⟨h1, h2⟩ ihb⟩
          intro st3 hst3
          rcases List.mem_cons.mp hst3 with h3 | h3
          · exact h3 ▸ hal2
          · exact iha st3 h3

/-- Witness for C2: a concrete one-write sequence from the empty store. -/
theorem add_to_index_alignment_witness :
    (∀ st2 ∈ writeTrace (fun _ => Except.ok [(0:ℤ)]) emptyStore [("t", "s")],
      aligned st2) ∧
    List.Chain (fun a b => b.index.length = a.index.length + 1 ∧
      b.docs.length = a.docs.length + 1) emptyStore
      (writeTrace (fun _ => Except.ok [(0:ℤ)]) emptyStore [("t", "s")]) :=
  add_to_index_alignment (fun _ => Except.ok [(0:ℤ)]) emptyStore [("t", "s")] rfl

/-- C5 (counterexample): the claimed layout — the evidence texts first,
followed by a fixed template and the query — matches no fixed template `T`:
the produced prompt begins with the instructional header, not with the
evidence text. -/
theorem prompt_layout_cex :
    ¬ ∃ T : String, ∀ (query : String) (evidence : List Doc),
        offlinePrompt query evidence = specJoinedTexts evidence ++ T ++ query := by
  rintro ⟨T, hT⟩
  have h := hT "q" [⟨"x", "s"⟩]
  have hL : (offlinePrompt "q" [⟨"x", "s"⟩]).data.head? = some '\n' := rfl
  rw [h] at hL
  have hR : (specJoinedTexts [⟨"x", "s"⟩] ++ T ++ "q").data.head? = some 'x' := by
    have hx : specJoinedTexts [⟨"x", "s"⟩] = "x" := rfl
    rw [hx, String.data_append, String.data_append]
    rfl
  rw [hR] at hL
  exact absurd (Option.some.injEq .. ▸ hL) (by decide)

/-- C5 (amended): the prompt consists of a fixed instructional header, then
the evidence texts in the order provided separated by a blank line, then a
fixed QUESTION header, the verbatim query, and a fixed closing instruction;
the offline and online paths differ only in the header. -/
theorem prompt_layout (query : String) (evidence : List Doc) :
    offlinePrompt query evidence =
      "\nAnswer factually using the given CONTEXT. \nIf unsure, say \"Information not found locally.\"\n\nCONTEXT:\n"
        ++ specJoinedTexts evidence ++ "\n\nQUESTION:\n" ++ query
        ++ "\n\nAnswer clearly:\n" ∧
    onlinePrompt query evidence =
      "\nAnswer factually using this recent web search context.\n\nCONTEXT:\n"
        ++ specJoinedTexts evidence ++ "\n\nQUESTION:\n" ++ query
        ++ "\n\nAnswer clearly:\n" :=
  ⟨rfl, rfl⟩

/-- C6: when the connectivity probe is false, the selected mode is the forced
offline label whatever the radio choice was, the dispatch condition is false,
the query is handled by the offline strategy, and the result is independent
of the Live Search Client (it is never consulted). -/
theorem offline_fallback_routing (choice : String)
    (encode : String → Except String Vec) (gen : String → String) (st : Store)
    (fetchA fetchB : String → List Doc) (query : String) :
    usesOnlinePath (selectMode false choice) = false ∧
    mainDispatch encode gen st fetchA query (selectMode false choice) =
      (offline_rag encode gen st.index st.docs query 3).map (fun r => (r, st)) ∧
    mainDispatch encode gen st fetchA query (selectMode false choice) =
      mainDispatch encode gen st fetchB query (selectMode false choice) := by
  have hmode : selectMode false choice = offlineModeLabel := rfl
  have hno : usesOnlinePath offlineModeLabel = false := by decide
  refine ⟨hmode ▸ hno, ?_, ?_⟩
  · rw [hmode]; unfold mainDispatch; rw [hno]; simp
  · rw [hmode]; unfold mainDispatch; rw [hno]; simp

/-- C7: on an empty document store, `offline_rag` returns the fixed
no-offline-data message (the `NoCache` signal) with empty evidence, without
invoking the generation backend — for every query, embedder, generator, index
and `top_k`. -/
theorem offline_rag_empty_store_nocache (encode : String → Except String Vec)
    (gen : String → String) (idx : List Vec) (query : String) (top_k : Nat) :
    offline_rag encode gen idx [] query top_k =
      .ok ⟨noOfflineDataMsg, [], false⟩ := by
  unfold offline_rag
  rw [if_pos (Or.inl rfl)]

/-- C8: prompt assembly is deterministic — two invocations with identical
`(query, evidence)` inputs return identical strings, on both the offline and
the online path. -/
theorem prompt_deterministic (q1 q2 : String) (ev1 ev2 : List Doc)
    (hq : q1 = q2) (hev : ev1 = ev2) :
    offlinePrompt q1 ev1 = offlinePrompt q2 ev2 ∧
    onlinePrompt q1 ev1 = onlinePrompt q2 ev2 := by
  subst hq; subst hev; exact ⟨rfl, rfl⟩

/-- Witness for C8 at concrete inputs. -/
theorem prompt_deterministic_witness :
    offlinePrompt "a" [⟨"t", "u"⟩] = offlinePrompt "a" [⟨"t", "u"⟩] ∧
    onlinePrompt "a" [⟨"t", "u"⟩] = onlinePrompt "a" [⟨"t", "u"⟩] :=
  prompt_deterministic "a" "a" [⟨"t", "u"⟩] [⟨"t", "u"⟩] rfl rfl

/-- C10: `load_faiss` returns the parsed file contents only when both files
exist and both reads succeed; if either file is absent or either read raises,
it returns an empty index and empty document list, discarding whatever the
other file held; being a total function of the two file states, it never
raises to the caller. -/
theorem load_faiss_spec (vf : FileState (List Vec)) (df : FileState (List Doc)) :
    (∀ v d, vf = FileState.readable v → df = FileState.readable d →
      load_faiss vf df = (v, d)) ∧
    ((vf.read = none ∨ df.read = none) → load_faiss vf df = ([], [])) := by
  cases vf <;> cases df <;>
    simp [load_faiss, FileState.read, FileState.existsOnDisk]

/-- Witness for C10: a readable index file next to an unreadable document
file loads as empty stores, and two readable files load their contents. -/
theorem load_faiss_spec_witness :
    load_faiss (FileState.readable [[(1:ℤ)]]) FileState.unreadable = ([], []) ∧
    load_faiss (FileState.readable [[(1:ℤ)]])
      (FileState.readable [⟨"t", "s"⟩]) = ([[(1:ℤ)]], [⟨"t", "s"⟩]) :=
  ⟨(load_faiss_spec (FileState.readable [[(1:ℤ)]]) FileState.unreadable).2
      (Or.inr rfl),
    (load_faiss_spec (FileState.readable [[(1:ℤ)]])
      (FileState.readable [⟨"t", "s"⟩])).1 [[(1:ℤ)]] [⟨"t", "s"⟩] rfl rfl⟩

/-- C1 (counterexample): with an embedder that fails on the second fetched
document, that individual Cache Writer write raises, and the overall online
retrieval aborts with the raised error instead of skipping the document and
returning its evidence and status. -/
theorem online_rag_write_failure_aborts_cex :
    (∃ st1 : Store, add_to_index badEncode st1 "boom" "s2" =
      .error "embed fail") ∧
    online_rag badEncode (fun _ => "answer") emptyStore fetchedDocs "q" =
      .error "embed fail" :=
  ⟨⟨emptyStore, rfl⟩, rfl⟩

/-- C1 (amended): a Cache Writer failure inside the cache-warming loop is
neither caught nor logged: it propagates out of `online_rag`, aborting the
whole retrieval with the raised error and returning no evidence and no
status. -/
theorem online_rag_write_failure_propagates
    (encode : String → Except String Vec) (gen : String → String) (st : Store)
    (fetched : List Doc) (query e : String)
    (h : warmCache encode st fetched = .error e) :
    online_rag encode gen st fetched query = .error e := by
  unfold online_rag
  cases fetched with
  | nil => exact absurd h (by simp [warmCache])
  | cons d rest =>
      rw [if_neg (by simp), h]

/-- Witness for C1's amended theorem at a concrete failing fetch list. -/
theorem online_rag_write_failure_propagates_witness :
    online_rag badEncode (fun _ => "x") emptyStore [⟨"boom", "s"⟩] "w" =
      .error "embed fail" :=
  online_rag_write_failure_propagates badEncode (fun _ => "x") emptyStore
    [⟨"boom", "s"⟩] "w" "embed fail" rfl

/-- C3 (counterexample): the persist step of a successful write issues an
in-place write of the index file — it does not follow the
write-to-temp-then-rename discipline the claim asserts. -/
theorem persist_not_temp_rename_cex :
    ¬ ∀ st2 : Store,
        add_to_index (fun _ => Except.ok [(0:ℤ)]) emptyStore "t" "s" =
          Except.ok st2 →
        specTempThenRename st2.fsTrace VECTOR_DB := by
  intro h
  have h2 := h ⟨[[(0:ℤ)]], [⟨"t", "s"⟩], [[(0:ℤ)]], [⟨"t", "s"⟩],
    [.writeFile VECTOR_DB, .writeFile DOC_STORE]⟩ rfl
  exact h2 (FsOp.writeFile VECTOR_DB) (by simp) rfl

/-- C3 (amended): each successful write persists both stores by rewriting
the two files in place, with no temp file and no rename; an interrupted
in-place write can leave the file unreadable, and a subsequent `load_faiss`
on an unreadable index file does not raise — it degrades to empty stores,
losing the cached data. -/
theorem persist_direct_write_crash (encode : String → Except String Vec)
    (st st2 : Store) (t s : String)
    (h : add_to_index encode st t s = .ok st2) :
    st2.fsTrace = st.fsTrace ++
      [FsOp.writeFile VECTOR_DB, FsOp.writeFile DOC_STORE] ∧
    opCanCorrupt (FsOp.writeFile VECTOR_DB) VECTOR_DB = true ∧
    (∀ df, load_faiss FileState.unreadable df = ([], [])) := by
  refine ⟨(add_to_index_ok encode st t s st2 h).2.2, rfl, ?_⟩
  intro df
  cases df <;> rfl

/-- Witness for C3's amended theorem at a concrete successful write. -/
theorem persist_direct_write_crash_witness :
    (⟨[[(0:ℤ)]], [⟨"t", "s"⟩], [[(0:ℤ)]], [⟨"t", "s"⟩],
        [FsOp.writeFile VECTOR_DB, FsOp.writeFile DOC_STORE]⟩ : Store).fsTrace =
      emptyStore.fsTrace ++
        [FsOp.writeFile VECTOR_DB, FsOp.writeFile DOC_STORE] ∧
    opCanCorrupt (FsOp.writeFile VECTOR_DB) VECTOR_DB = true ∧
    (∀ df, load_faiss FileState.unreadable df = ([], [])) :=
  persist_direct_write_crash (fun _ => Except.ok [(0:ℤ)]) emptyStore
    ⟨[[(0:ℤ)]], [⟨"t", "s"⟩], [[(0:ℤ)]], [⟨"t", "s"⟩],
      [FsOp.writeFile VECTOR_DB, FsOp.writeFile DOC_STORE]⟩ "t" "s" rfl

/-- C4 (counterexample): a nearest-neighbor search against the empty index
with the default `top_k = 3` returns three `-1` padding ids — not an empty
sequence. -/
theorem empty_index_search_cex :
    faissSearch [] [(0:ℤ)] 3 = [-1, -1, -1] ∧ faissSearch [] [(0:ℤ)] 3 ≠ [] :=
  ⟨rfl, by decide⟩

/-- C4 (amended): a search on the empty index returns `k` padding entries
`-1` rather than an empty sequence; the program never searches an empty
index, because `offline_rag` returns the no-offline-data result before
searching. -/
theorem empty_index_search_padding (q : Vec) (k : Nat)
    (encode : String → Except String Vec) (gen : String → String)
    (docs : List Doc) (query : String) :
    faissSearch [] q k = List.replicate k (-1) ∧
    offline_rag encode gen [] docs query k =
      .ok ⟨noOfflineDataMsg, [], false⟩ := by
  constructor
  · simp [faissSearch, scoredOf]
  · simp [offline_rag]

/-- C9: with a non-empty aligned store holding fewer than `k` documents, the
search returns the ids of all stored vectors followed by `-1` padding up to
length `k`; `offline_rag`'s bound filter (id below the store length) admits
every id including the `-1`s; the evidence list is therefore the real
neighbors followed by one copy of the document at the last store position per
padding slot, and it contains duplicate documents that are not genuine
neighbors. -/
theorem faiss_padding_duplicates (idx : List Vec) (docs : List Doc) (q : Vec)
    (k : Nat) (hal : idx.length = docs.length) (h0 : 0 < docs.length)
    (hk : docs.length < k) :
    ∃ (realTop : List Int) (lastDoc : Doc),
      docs.getLast? = some lastDoc ∧
      faissSearch idx q k = realTop ++ List.replicate (k - docs.length) (-1) ∧
      realTop.length = docs.length ∧
      (faissSearch idx q k).filter
        (fun i => decide (i < (docs.length : Int))) = faissSearch idx q k ∧
      offlineEvidence docs (faissSearch idx q k) =
        realTop.filterMap (pyGet docs) ++
          List.replicate (k - docs.length) lastDoc ∧
      ¬ (offlineEvidence docs (faissSearch idx q k)).Nodup := by
  have hne : docs ≠ [] := by
    intro hc
    rw [hc] at h0
    exact absurd h0 (by simp)
  obtain ⟨lastDoc, hlast⟩ := Option.isSome_iff_exists.mp
    (List.getLast?_isSome.mpr hne)
  obtain ⟨realTop, hfs, hlen, hperm⟩ := faissSearch_short idx q k (by omega)
  rw [hal] at hfs hlen hperm
  have hmem : ∀ i ∈ realTop, 0 ≤ i ∧ i < (docs.length : Int) := by
    intro i hi
    have h2 : i ∈ (List.range docs.length).map Int.ofNat := hperm.mem_iff.mp hi
    obtain ⟨m, hm, hmi⟩ := List.mem_map.mp h2
    have h3 := List.mem_range.mp hm
    subst hmi
    exact ⟨Int.ofNat_nonneg m, Int.ofNat_lt.mpr h3⟩
  have hfilter : (faissSearch idx q k).filter
      (fun i => decide (i < (docs.length : Int))) = faissSearch idx q k := by
    apply List.filter_eq_self.mpr
    intro a ha
    rw [hfs] at ha
    rcases List.mem_append.mp ha with h1 | h2
    · exact decide_eq_true (hmem a h1).2
    · have h3 := (List.mem_replicate.mp h2).2
      subst h3
      exact decide_eq_true (by omega)
  have hpadmap : ∀ m : Nat,
      (List.replicate m (-1 : Int)).filterMap (pyGet docs) =
        List.replicate m lastDoc := by
    intro m
    induction m with
    | zero => rfl
    | succ n ih =>
        simp [List.replicate_succ, List.filterMap_cons,
          pyGet_neg_one docs hne, hlast, ih]
  have hev : offlineEvidence docs (faissSearch idx q k) =
      realTop.filterMap (pyGet docs) ++
        List.replicate (k - docs.length) lastDoc := by
    unfold offlineEvidence
    rw [hfilter, hfs, List.filterMap_append, hpadmap]
  have hlastidx : pyGet docs ((docs.length - 1 : Nat) : Int) = some lastDoc := by
    rw [pyGet_ofNat, ← List.getLast?_eq_getElem?]
    exact hlast
  have hlasttop : lastDoc ∈ realTop.filterMap (pyGet docs) := by
    apply List.mem_filterMap.mpr
    refine ⟨((docs.length - 1 : Nat) : Int), ?_, hlastidx⟩
    apply hperm.mem_iff.mpr
    exact List.mem_map.mpr ⟨docs.length - 1, List.mem_range.mpr (by omega), rfl⟩
  have hnodup : ¬ (offlineEvidence docs (faissSearch idx q k)).Nodup := by
    rw [hev]
    intro hnd
    obtain ⟨-, -, hdisj⟩ := List.nodup_append.mp hnd
    exact hdisj hlasttop (List.mem_replicate.mpr ⟨by omega, rfl⟩)
  exact ⟨realTop, lastDoc, hlast, hfs, hlen, hfilter, hev, hnodup⟩

/-- Witness for C9 at a concrete two-document store queried with `k = 3`. -/
theorem faiss_padding_duplicates_witness :
    ∃ (realTop : List Int) (lastDoc : Doc),
      ([⟨"a", "sa"⟩, ⟨"b", "sb"⟩] : List Doc).getLast? = some lastDoc ∧
      faissSearch [[(0:ℤ)], [(1:ℤ)]] [(0:ℤ)] 3 =
        realTop ++ List.replicate
          (3 - ([⟨"a", "sa"⟩, ⟨"b", "sb"⟩] : List Doc).length) (-1) ∧
      realTop.length = ([⟨"a", "sa"⟩, ⟨"b", "sb"⟩] : List Doc).length ∧
      (faissSearch [[(0:ℤ)], [(1:ℤ)]] [(0:ℤ)] 3).filter
        (fun i => decide
          (i < ((([⟨"a", "sa"⟩, ⟨"b", "sb"⟩] : List Doc).length : Int)))) =
        faissSearch [[(0:ℤ)], [(1:ℤ)]] [(0:ℤ)] 3 ∧
      offlineEvidence [⟨"a", "sa"⟩, ⟨"b", "sb"⟩]
          (faissSearch [[(0:ℤ)], [(1:ℤ)]] [(0:ℤ)] 3) =
        realTop.filterMap (pyGet [⟨"a", "sa"⟩, ⟨"b", "sb"⟩]) ++
          List.replicate (3 - ([⟨"a", "sa"⟩, ⟨"b", "sb"⟩] : List Doc).length)
            lastDoc ∧
      ¬ (offlineEvidence [⟨"a", "sa"⟩, ⟨"b", "sb"⟩]
          (faissSearch [[(0:ℤ)], [(1:ℤ)]] [(0:ℤ)] 3)).Nodup :=
  faiss_padding_duplicates [[(0:ℤ)], [(1:ℤ)]] [⟨"a", "sa"⟩, ⟨"b", "sb"⟩]
    [(0:ℤ)] 3 rfl (by decide) (by decide)
